import Mathlib

/-!
Verification development for the `maude` desktop shell
(`src/src-tauri/src/main.rs`): a sidecar lifecycle supervisor that
allocates an ephemeral port, spawns a backend ("sidecar") process with
environment injection, relays the child's output to log sinks, polls a
health endpoint until ready (then navigates the webview), and kills the
child exactly once on window destruction.

The Rust source is shallowly embedded: each concurrent task becomes a
pure Lean function producing an explicit trace of the observable actions
it performs, and the shared `Mutex<Option<CommandChild>>` slot becomes
explicit state threaded through the sequence of lock acquisitions
(the mutex serializes the accesses, so a sequential fold over the
acquisition order is a faithful model).
-/

namespace Maude

/-! ## Health monitor (main.rs, the `tauri::async_runtime::spawn` poll task)

```rust
let client = reqwest::Client::new();
let health_url = format!("http://localhost:{}/health", sidecar_port);
for _ in 0..60 {
    tokio::time::sleep(Duration::from_millis(250)).await;
    if let Ok(resp) = client.get(&health_url).send().await {
        if resp.status().is_success() {
            println!("[maude] server ready on port {}", sidecar_port);
            if let Some(window) = app_handle.get_webview_window("main") {
                let _ = window.eval(&format!(
                    "window.location.href = 'http://localhost:{}/';", sidecar_port));
            }
            return;
        }
    }
}
eprintln!("[maude] server failed to start within 15 seconds");
```
-/

/-- The poll interval of the health loop: `Duration::from_millis(250)`. -/
def poll_interval_ms : Nat := 250

/-- The attempt budget of the health loop: the `for _ in 0..60` bound. -/
def max_attempts : Nat := 60

/-- The health URL, `format!("http://localhost:{}/health", sidecar_port)`. -/
def healthUrl (port : Nat) : String :=
  "http://localhost:" ++ toString port ++ "/health"

/-- The navigation target written into `window.location.href` on readiness:
`format!("window.location.href = 'http://localhost:{}/';", sidecar_port)`. -/
def navTarget (port : Nat) : String :=
  "http://localhost:" ++ toString port ++ "/"

/-- The readiness log line: `println!("[maude] server ready on port {}", sidecar_port)`. -/
def readyMsg (port : Nat) : String :=
  "[maude] server ready on port " ++ toString port

/-- The timeout diagnostic: `eprintln!("[maude] server failed to start within 15 seconds")`. -/
def timeoutMsg : String := "[maude] server failed to start within 15 seconds"

/-- Terminal state of the health monitor: `ready` when a poll succeeded,
`failedTimeout` when the attempt budget ran out. -/
inductive HealthState where
  | ready
  | failedTimeout
deriving DecidableEq, Repr

/-- One observable action of the health-poll task, in order of occurrence:
suspension, HTTP request, stdout/stderr log line, or navigation of the
webview (`window.eval`; the Bool records whether the eval succeeded —
the code discards this result via `let _ =`). -/
inductive HealthEvent where
  | sleep (ms : Nat)
  | request (method : String) (url : String)
  | logInfo (msg : String)
  | logError (msg : String)
  | navigate (url : String) (evalOk : Bool)
deriving DecidableEq, Repr

/-- The backend as seen by the monitor: for each attempt index, either
`some status` (a response arrived with that HTTP status code) or `none`
(connection refused / timeout — `client.get(..).send().await` returned `Err`). -/
def Backend : Type := Nat → Option Nat

/-- `resp.status().is_success()`: the 2xx class (reqwest/http `is_success`
is `200 <= code && code < 300`). -/
def is_success (s : Nat) : Bool := decide (200 ≤ s ∧ s < 300)

/-- Did the attempt with result `r` observe readiness: a response arrived
and its status was 2xx. Any other response status or a connection
failure falls through to the next loop iteration. -/
def attemptOk (r : Option Nat) : Bool :=
  match r with
  | some s => is_success s
  | none => false

/-- The body of the `for _ in 0..60` health loop, unrolled over the remaining
budget `fuel`, with `i` the index of the next attempt; `windowExists`
models whether `app_handle.get_webview_window("main")` returns `Some`,
and `evalOk` whether `window.eval(..)` returns `Ok` (its result is
discarded by the code either way). Returns the task's trace and final state. -/
def pollLoop (backend : Backend) (port : Nat) (windowExists : Bool)
    (evalOk : Bool) : Nat → Nat → List HealthEvent × HealthState
  | 0, _ => ([.logError timeoutMsg], .failedTimeout)
  | fuel + 1, i =>
    let pre : List HealthEvent :=
      [.sleep poll_interval_ms, .request "GET" (healthUrl port)]
    match backend i with
    | some s =>
      if is_success s then
        (pre ++ [.logInfo (readyMsg port)]
            ++ (if windowExists then [.navigate (navTarget port) evalOk] else []),
         .ready)
      else
        let r := pollLoop backend port windowExists evalOk fuel (i + 1)
        (pre ++ r.1, r.2)
    | none =>
      let r := pollLoop backend port windowExists evalOk fuel (i + 1)
      (pre ++ r.1, r.2)

/-- The whole health-poll task: the loop entered with the full budget of
`max_attempts` attempts starting at attempt 0. -/
def healthMonitor (backend : Backend) (port : Nat) (windowExists : Bool)
    (evalOk : Bool) : List HealthEvent × HealthState :=
  pollLoop backend port windowExists evalOk max_attempts 0

/-- Number of HTTP requests issued in a trace. -/
def numRequests (t : List HealthEvent) : Nat :=
  t.countP fun e => match e with | .request _ _ => true | _ => false

/-- Number of webview navigation actions in a trace. -/
def numNavigations (t : List HealthEvent) : Nat :=
  t.countP fun e => match e with | .navigate _ _ => true | _ => false

/-- Total milliseconds the task spent suspended. -/
def totalSleepMs (t : List HealthEvent) : Nat :=
  (t.map fun e => match e with | .sleep ms => ms | _ => 0).sum

/-- The log lines (stdout and stderr) a trace emits, in order. -/
def logEvents (t : List HealthEvent) : List HealthEvent :=
  t.filter fun e => match e with
    | .logInfo _ => true
    | .logError _ => true
    | _ => false

/-- Do all of the first `n` attempts against `b` fail (no response, or a
non-2xx status)? -/
def allFailUpTo (b : Backend) (n : Nat) : Bool :=
  (List.range n).all fun i => !attemptOk (b i)

/-- Does the backend `b` first answer with a 2xx response exactly at
attempt `k` (all earlier attempts failing)? -/
def firstReadyAt (b : Backend) (k : Nat) : Bool :=
  allFailUpTo b k && attemptOk (b k)

/-- A backend that never responds at all (connection always refused). -/
def neverOkBackend : Backend := fun _ => none

/-- A backend that is healthy from the start: every request gets HTTP 200. -/
def alwaysOkBackend : Backend := fun _ => some 200

/-- The two events opening every loop iteration: the 250ms suspension, then
the GET request to the health URL. -/
def pollBlock (port : Nat) : List HealthEvent :=
  [.sleep poll_interval_ms, .request "GET" (healthUrl port)]

/-- Is every request in the trace a GET to the health URL of `port`? -/
def requestsWellFormed (port : Nat) (t : List HealthEvent) : Bool :=
  t.all fun e => match e with
    | .request m u => m == "GET" && u == healthUrl port
    | _ => true

/-- Checks that every `request` event in a trace is immediately preceded by
a `sleep poll_interval_ms` event (so no probe is ever issued without the
full 250ms suspension first). -/
def sleepThenRequest : List HealthEvent → Bool
  | [] => true
  | .request _ _ :: _ => false
  | .sleep ms :: .request _ _ :: rest => (ms == poll_interval_ms) && sleepThenRequest rest
  | _ :: rest => sleepThenRequest rest

/-- A backend that always responds, but never with a 2xx status. -/
def always500Backend : Backend := fun _ => some 500

/-- A backend that refuses the first two connections and then answers
HTTP 204 from attempt 2 on. -/
def okAt2Backend : Backend := fun i => if i < 2 then none else some 204

/-! ## Output relay (main.rs, the first `tauri::async_runtime::spawn` task)

```rust
while let Some(event) = rx.recv().await {
    match event {
        CommandEvent::Stdout(line) => {
            println!("[maude-server] {}", String::from_utf8_lossy(&line));
        }
        CommandEvent::Stderr(line) => {
            eprintln!("[maude-server] {}", String::from_utf8_lossy(&line));
        }
        CommandEvent::Terminated(status) => {
            eprintln!("[maude-server] terminated: {:?}", status);
            break;
        }
        CommandEvent::Error(err) => {
            eprintln!("[maude-server] error: {}", err);
            break;
        }
        _ => {}
    }
}
```
The event channel is modelled as the list of events the task would
receive until the channel closes; lines are modelled as the strings the
code obtains via `String::from_utf8_lossy`, and the `Terminated` payload
as its `{:?}` rendering. `other` stands for the non-exhaustive variants
the `_ => {}` arm skips. -/

/-- An event on the child's event stream. -/
inductive CommandEvent where
  | stdout (line : String)
  | stderr (line : String)
  | terminated (status : String)
  | error (err : String)
  | other
deriving DecidableEq, Repr

/-- A line written to the host's log sinks: `info` is stdout (`println!`),
`error` is stderr (`eprintln!`). -/
inductive LogEntry where
  | info (msg : String)
  | error (msg : String)
deriving DecidableEq, Repr

/-- The relay loop: the log entries it emits over the events it consumes,
ending at the first `terminated`/`error` event (the `break`) or when the
channel closes. -/
def relay : List CommandEvent → List LogEntry
  | [] => []
  | .stdout line :: rest => .info ("[maude-server] " ++ line) :: relay rest
  | .stderr line :: rest => .error ("[maude-server] " ++ line) :: relay rest
  | .terminated status :: _ => [.error ("[maude-server] terminated: " ++ status)]
  | .error err :: _ => [.error ("[maude-server] error: " ++ err)]
  | .other :: rest => relay rest

/-- Is this one of the two events on which the relay breaks out of its loop? -/
def isTerminal : CommandEvent → Bool
  | .terminated _ => true
  | .error _ => true
  | _ => false

/-- The log entry the relay emits for a (non-terminal) line event: stdout
goes to the info sink, stderr to the error sink, the line content kept
verbatim after the `[maude-server] ` tag; non-line events emit nothing. -/
def lineLog : CommandEvent → Option LogEntry
  | .stdout line => some (.info ("[maude-server] " ++ line))
  | .stderr line => some (.error ("[maude-server] " ++ line))
  | _ => none

/-- The log entry the relay emits for a terminal event before stopping. -/
def terminalLog : CommandEvent → List LogEntry
  | .terminated status => [.error ("[maude-server] terminated: " ++ status)]
  | .error err => [.error ("[maude-server] error: " ++ err)]
  | _ => []

/-! ## Lifecycle owner (main.rs, `SidecarState` and the Destroyed handler)

```rust
struct SidecarState {
    child: std::sync::Mutex<Option<tauri_plugin_shell::process::CommandChild>>,
}
...
.on_window_event(|window, event| {
    if let tauri::WindowEvent::Destroyed = event {
        if let Some(state) = window.try_state::<SidecarState>() {
            if let Ok(mut guard) = state.child.lock() {
                if let Some(child) = guard.take() {
                    let _ = child.kill();
                }
            }
        }
    }
})
```
The mutex serializes the handler invocations, so a run of destroy
signals is modelled as a sequential fold over the slot contents; child
handles are modelled as process identifiers. -/

/-- One execution of the Destroyed handler body under the lock: `take` the
slot (leaving it empty) and, if a handle was present, issue one kill
request (whose result the code discards). Returns the new slot content
and the number of kill requests issued (0 or 1). -/
def on_window_destroyed (child : Option Nat) : Option Nat × Nat :=
  match child with
  | some _ => (none, 1)
  | none => (none, 0)

/-- A run of `n` consecutive destroy signals against the slot, each acquiring
the lock in turn: final slot content and total kill requests issued. -/
def runDestroySignals : Option Nat → Nat → Option Nat × Nat
  | st, 0 => (st, 0)
  | st, n + 1 =>
    let r := on_window_destroyed st
    let rest := runDestroySignals r.1 n
    (rest.1, r.2 + rest.2)

/-! ## Startup path (main.rs, `main` and the `setup` closure)

```rust
let listener = std::net::TcpListener::bind("127.0.0.1:0")
    .expect("failed to find a free port");
let sidecar_port = listener.local_addr().unwrap().port();
drop(listener);
...
.setup(move |app| {
    WebviewWindowBuilder::new(app, "main", WebviewUrl::default())...build()?;
    let manifest_dir = env!("CARGO_MANIFEST_DIR");
    let client_dist = format!("{}/../packages/client/build", manifest_dir);
    let (mut rx, child) = shell
        .sidecar("maude-server")
        .expect("failed to create maude-server sidecar")
        .env("PORT", sidecar_port.to_string())
        .env("CLIENT_DIST", &client_dist)
        .spawn()
        .expect("failed to spawn maude-server sidecar");
    app.manage(SidecarState { child: Mutex::new(Some(child)) });
    tauri::async_runtime::spawn(async move { /* output relay */ });
    tauri::async_runtime::spawn(async move { /* health poll */ });
    Ok(())
})
```
The OS is modelled by three parameters: `osPort` (the ephemeral port
`bind("127.0.0.1:0")` returns, `none` when no port is available),
`sidecarFound` (whether `shell.sidecar("maude-server")` resolves the
bundled executable) and `spawnOk` (whether the OS creates the process).
The result is the ordered list of actions the startup path performed,
plus `some message` when it aborted via a failed `.expect` (a panic with
that diagnostic). -/

/-- An observable action of the startup path, in program order. -/
inductive SetupAction where
  | allocPort (bindAddr : String) (port : Nat)
  | buildWindow (label : String)
  | spawnChild (cmd : String) (env : List (String × String))
  | manageChild
  | startOutputRelay
  | startHealthMonitor (port : Nat)
deriving DecidableEq, Repr

/-- The static-assets path: `format!("{}/../packages/client/build", manifest_dir)`. -/
def client_dist (manifest_dir : String) : String :=
  manifest_dir ++ "/../packages/client/build"

/-- The startup path: port allocation in `main`, then the `setup` closure.
Returns the actions performed, in order, and the abort diagnostic if
startup panicked. -/
def mainStartup (osPort : Option Nat) (sidecarFound spawnOk : Bool)
    (manifest_dir : String) : List SetupAction × Option String :=
  match osPort with
  | none => ([], some "failed to find a free port")
  | some port =>
    if sidecarFound then
      if spawnOk then
        ([.allocPort "127.0.0.1:0" port, .buildWindow "main",
          .spawnChild "maude-server"
            [("PORT", toString port), ("CLIENT_DIST", client_dist manifest_dir)],
          .manageChild, .startOutputRelay, .startHealthMonitor port], none)
      else
        ([.allocPort "127.0.0.1:0" port, .buildWindow "main"],
         some "failed to spawn maude-server sidecar")
    else
      ([.allocPort "127.0.0.1:0" port, .buildWindow "main"],
       some "failed to create maude-server sidecar")

/-- Number of output-relay task starts in a startup trace. -/
def numRelayStarts (t : List SetupAction) : Nat :=
  t.countP fun a => match a with | .startOutputRelay => true | _ => false

/-- Number of health-monitor task starts in a startup trace. -/
def numMonitorStarts (t : List SetupAction) : Nat :=
  t.countP fun a => match a with | .startHealthMonitor _ => true | _ => false

/-- Number of port allocations in a startup trace. -/
def numPortAllocations (t : List SetupAction) : Nat :=
  t.countP fun a => match a with | .allocPort _ _ => true | _ => false

/-- Number of child-spawn actions in a startup trace. -/
def numSpawnActions (t : List SetupAction) : Nat :=
  t.countP fun a => match a with | .spawnChild _ _ => true | _ => false

/-! ## Theorems: derived facts and the claims -/

/-- One step of the loop when the attempt at index `i` fails: the iteration
contributes its sleep and request and the loop continues with the rest of
the budget at attempt `i + 1`. -/
theorem pollLoop_continue (backend : Backend) (port : Nat) (we ok : Bool)
    (f i : Nat) (h : attemptOk (backend i) = false) :
    pollLoop backend port we ok (f + 1) i =
      (pollBlock port ++ (pollLoop backend port we ok f (i + 1)).1,
       (pollLoop backend port we ok f (i + 1)).2) := by
  rcases hb : backend i with _ | s
  · simp [pollLoop, hb, pollBlock]
  · have hs : is_success s = false := by simpa [attemptOk, hb] using h
    simp [pollLoop, hb, hs, pollBlock]

/-- One step of the loop when the attempt at index `i` gets a 2xx response:
the loop logs readiness, navigates when the window still exists, and
returns — no further iteration happens. -/
theorem pollLoop_succeed (backend : Backend) (port : Nat) (we ok : Bool)
    (f i : Nat) (h : attemptOk (backend i) = true) :
    pollLoop backend port we ok (f + 1) i =
      (pollBlock port ++ [.logInfo (readyMsg port)]
        ++ (if we then [.navigate (navTarget port) ok] else []), .ready) := by
  rcases hb : backend i with _ | s
  · simp [attemptOk, hb] at h
  · have hs : is_success s = true := by simpa [attemptOk, hb] using h
    simp [pollLoop, hb, hs, pollBlock]

theorem numRequests_append (a b : List HealthEvent) :
    numRequests (a ++ b) = numRequests a + numRequests b :=
  List.countP_append _ _ _

theorem numNavigations_append (a b : List HealthEvent) :
    numNavigations (a ++ b) = numNavigations a + numNavigations b :=
  List.countP_append _ _ _

theorem totalSleepMs_append (a b : List HealthEvent) :
    totalSleepMs (a ++ b) = totalSleepMs a + totalSleepMs b := by
  simp [totalSleepMs]

theorem logEvents_append (a b : List HealthEvent) :
    logEvents (a ++ b) = logEvents a ++ logEvents b := by
  simp [logEvents]

theorem numRequests_pollBlock (port : Nat) : numRequests (pollBlock port) = 1 := by
  simp [numRequests, pollBlock]

theorem numNavigations_pollBlock (port : Nat) :
    numNavigations (pollBlock port) = 0 := by
  simp [numNavigations, pollBlock]

theorem totalSleepMs_pollBlock (port : Nat) :
    totalSleepMs (pollBlock port) = poll_interval_ms := by
  simp [totalSleepMs, pollBlock]

theorem logEvents_pollBlock (port : Nat) : logEvents (pollBlock port) = [] := by
  simp [logEvents, pollBlock]

/-- If every attempt in the window `[i, i + fuel)` fails, the loop runs its
whole remaining budget: one request per remaining attempt, no navigation,
the single timeout diagnostic as only log output, and final state
`failedTimeout`. -/
theorem pollLoop_noSuccess (backend : Backend) (port : Nat) (we ok : Bool) :
    ∀ fuel i, (∀ j, i ≤ j → j < i + fuel → attemptOk (backend j) = false) →
      numRequests (pollLoop backend port we ok fuel i).1 = fuel ∧
      numNavigations (pollLoop backend port we ok fuel i).1 = 0 ∧
      totalSleepMs (pollLoop backend port we ok fuel i).1 = fuel * poll_interval_ms ∧
      logEvents (pollLoop backend port we ok fuel i).1 = [.logError timeoutMsg] ∧
      (pollLoop backend port we ok fuel i).2 = .failedTimeout := by
  intro fuel
  induction fuel with
  | zero =>
    intro i _
    simp [pollLoop, numRequests, numNavigations, totalSleepMs, logEvents]
  | succ f ih =>
    intro i h
    have h0 : attemptOk (backend i) = false := h i le_rfl (by omega)
    obtain ⟨hr1, hr2, hr3, hr4, hr5⟩ :=
      ih (i + 1) (fun j hj1 hj2 => h j (by omega) (by omega))
    rw [pollLoop_continue backend port we ok f i h0]
    refine ⟨?_, ?_, ?_, ?_, hr5⟩
    · rw [numRequests_append, numRequests_pollBlock, hr1]; omega
    · rw [numNavigations_append, numNavigations_pollBlock, hr2]
    · rw [totalSleepMs_append, totalSleepMs_pollBlock, hr3]; ring
    · rw [logEvents_append, logEvents_pollBlock, hr4]; rfl

/-- If the first `m` attempts starting at index `i` fail and attempt `i + m`
gets a 2xx response (with `m` within the remaining budget), the loop
performs exactly `m + 1` iterations, then logs readiness, navigates when
the window exists, and returns `ready`; the trace decomposes as the
iteration prefix `pre` (no log lines, `m + 1` requests, no navigation)
followed by the readiness actions, with nothing after them. -/
theorem pollLoop_success (backend : Backend) (port : Nat) (we ok : Bool) :
    ∀ m fuel i, m < fuel →
      (∀ j, j < m → attemptOk (backend (i + j)) = false) →
      attemptOk (backend (i + m)) = true →
      ∃ pre,
        (pollLoop backend port we ok fuel i).1
          = pre ++ [.logInfo (readyMsg port)]
            ++ (if we then [.navigate (navTarget port) ok] else []) ∧
        numRequests pre = m + 1 ∧
        numNavigations pre = 0 ∧
        logEvents pre = [] ∧
        totalSleepMs pre = (m + 1) * poll_interval_ms ∧
        (pollLoop backend port we ok fuel i).2 = .ready := by
  intro m
  induction m with
  | zero =>
    intro fuel i hm _ hsucc
    obtain ⟨f, rfl⟩ : ∃ f, fuel = f + 1 := ⟨fuel - 1, by omega⟩
    have h0 : attemptOk (backend i) = true := by simpa using hsucc
    rw [pollLoop_succeed backend port we ok f i h0]
    refine ⟨pollBlock port, by simp, numRequests_pollBlock port,
      numNavigations_pollBlock port, logEvents_pollBlock port, ?_, rfl⟩
    rw [totalSleepMs_pollBlock]; ring
  | succ n ihn =>
    intro fuel i hm hfail hsucc
    obtain ⟨f, rfl⟩ : ∃ f, fuel = f + 1 := ⟨fuel - 1, by omega⟩
    have h0 : attemptOk (backend i) = false := by simpa using hfail 0 (by omega)
    have hsucc' : attemptOk (backend (i + 1 + n)) = true := by
      have he : i + 1 + n = i + (n + 1) := by omega
      rw [he]; exact hsucc
    have hfail' : ∀ j, j < n → attemptOk (backend (i + 1 + j)) = false := by
      intro j hj
      have he : i + 1 + j = i + (j + 1) := by omega
      rw [he]; exact hfail (j + 1) (by omega)
    obtain ⟨pre, heq, hc1, hc2, hc3, hc4, hst⟩ :=
      ihn f (i + 1) (by omega) hfail' hsucc'
    rw [pollLoop_continue backend port we ok f i h0]
    refine ⟨pollBlock port ++ pre, ?_, ?_, ?_, ?_, ?_, hst⟩
    · rw [heq]; simp
    · rw [numRequests_append, numRequests_pollBlock, hc1]; omega
    · rw [numNavigations_append, numNavigations_pollBlock, hc2]
    · rw [logEvents_append, logEvents_pollBlock, hc3]; rfl
    · rw [totalSleepMs_append, totalSleepMs_pollBlock, hc4]; ring

/-- Unpacking `allFailUpTo` into its per-attempt meaning. -/
theorem allFailUpTo_spec (b : Backend) (n : Nat) (h : allFailUpTo b n = true) :
    ∀ j, j < n → attemptOk (b j) = false := by
  intro j hj
  have hx := List.all_eq_true.mp h j (List.mem_range.mpr hj)
  simpa using hx

/-- The loop ends in state `ready` exactly when some attempt within the
remaining budget observes a 2xx response. -/
theorem pollLoop_ready_iff (backend : Backend) (port : Nat) (we ok : Bool) :
    ∀ fuel i, ((pollLoop backend port we ok fuel i).2 = .ready ↔
      ∃ j, j < fuel ∧ attemptOk (backend (i + j)) = true) := by
  intro fuel
  induction fuel with
  | zero => intro i; simp [pollLoop]
  | succ f ih =>
    intro i
    by_cases h0 : attemptOk (backend i) = true
    · rw [pollLoop_succeed backend port we ok f i h0]
      refine ⟨fun _ => ⟨0, by omega, by simpa using h0⟩, fun _ => rfl⟩
    · have h0' : attemptOk (backend i) = false := by
        simpa using h0
      rw [pollLoop_continue backend port we ok f i h0']
      show ((pollLoop backend port we ok f (i + 1)).2 = .ready ↔ _)
      rw [ih (i + 1)]
      constructor
      · rintro ⟨j, hj, hs⟩
        refine ⟨j + 1, by omega, ?_⟩
        have he : i + (j + 1) = i + 1 + j := by omega
        rw [he]; exact hs
      · rintro ⟨j, hj, hs⟩
        cases j with
        | zero => exact absurd (by simpa using hs) h0
        | succ j' =>
          refine ⟨j', by omega, ?_⟩
          have he : i + 1 + j' = i + (j' + 1) := by omega
          rw [he]; exact hs

/-- Every request the poll loop ever issues is `GET` to
`http://localhost:{port}/health`. -/
theorem pollLoop_requestsWellFormed (backend : Backend) (port : Nat)
    (we ok : Bool) :
    ∀ fuel i, requestsWellFormed port (pollLoop backend port we ok fuel i).1 = true := by
  intro fuel
  induction fuel with
  | zero => intro i; simp [pollLoop, requestsWellFormed]
  | succ f ih =>
    intro i
    by_cases h0 : attemptOk (backend i) = true
    · rw [pollLoop_succeed backend port we ok f i h0]
      cases we <;> simp [requestsWellFormed, pollBlock]
    · have h0' : attemptOk (backend i) = false := by simpa using h0
      rw [pollLoop_continue backend port we ok f i h0']
      have := ih (i + 1)
      simp only [requestsWellFormed, List.all_append] at this ⊢
      simp [pollBlock, this]

/-- In every iteration the suspension comes first: the poll loop's whole
trace passes the `sleepThenRequest` check. -/
theorem pollLoop_sleepThenRequest (backend : Backend) (port : Nat)
    (we ok : Bool) :
    ∀ fuel i, sleepThenRequest (pollLoop backend port we ok fuel i).1 = true := by
  intro fuel
  induction fuel with
  | zero => intro i; simp [pollLoop, sleepThenRequest]
  | succ f ih =>
    intro i
    by_cases h0 : attemptOk (backend i) = true
    · rw [pollLoop_succeed backend port we ok f i h0]
      cases we <;> simp [sleepThenRequest, pollBlock]
    · have h0' : attemptOk (backend i) = false := by simpa using h0
      rw [pollLoop_continue backend port we ok f i h0']
      show sleepThenRequest (pollBlock port ++ _) = true
      simp [sleepThenRequest, pollBlock, ih (i + 1)]

/-- The health-poll task on a backend whose first 2xx response comes at
attempt `k < max_attempts`: the trace is the `k + 1` poll iterations,
then the readiness log line, then (when the window exists) the single
navigation, and nothing else; final state `ready`. -/
theorem healthMonitor_success (backend : Backend) (port : Nat) (we ok : Bool)
    (k : Nat) (hk : k < max_attempts)
    (hfail : ∀ j, j < k → attemptOk (backend j) = false)
    (hsucc : attemptOk (backend k) = true) :
    ∃ pre,
      (healthMonitor backend port we ok).1
        = pre ++ [.logInfo (readyMsg port)]
          ++ (if we then [.navigate (navTarget port) ok] else []) ∧
      numRequests pre = k + 1 ∧
      numNavigations pre = 0 ∧
      logEvents pre = [] ∧
      totalSleepMs pre = (k + 1) * poll_interval_ms ∧
      (healthMonitor backend port we ok).2 = .ready := by
  have h := pollLoop_success backend port we ok k max_attempts 0 hk
    (fun j hj => by simpa using hfail j hj) (by simpa using hsucc)
  exact h

/-- C1 counterexample: on a backend that never responds, the health monitor
issues 60 polls (the `for _ in 0..60` budget) totalling 15000ms of
suspension — not the 40 polls / ~10 seconds the claim states. -/
theorem health_budget_counterexample :
    numRequests (healthMonitor neverOkBackend 3000 true true).1 = 60 ∧
    totalSleepMs (healthMonitor neverOkBackend 3000 true true).1 = 15000 ∧
    numRequests (healthMonitor neverOkBackend 3000 true true).1 ≠ 40 ∧
    totalSleepMs (healthMonitor neverOkBackend 3000 true true).1 ≠ 10000 := by
  obtain ⟨h1, _, h3, _, _⟩ :=
    pollLoop_noSuccess neverOkBackend 3000 true true 60 0 (fun j _ _ => rfl)
  have e1 : numRequests (healthMonitor neverOkBackend 3000 true true).1 = 60 := h1
  have e2 : totalSleepMs (healthMonitor neverOkBackend 3000 true true).1 = 15000 := by
    rw [show totalSleepMs (healthMonitor neverOkBackend 3000 true true).1
        = 60 * poll_interval_ms from h3]
    decide
  exact ⟨e1, e2, by rw [e1]; omega, by rw [e2]; omega⟩

/-- C1 (amended): for a backend that never returns a successful response,
the Health Monitor issues exactly `max_attempts` = 60 health polls at the
fixed 250ms interval and then transitions to failed-timeout, not before
and not after — a total suspension of 15000ms (~15 seconds, not the
spec's reference 40 attempts / ~10 seconds) — with zero navigation
actions issued. -/
theorem health_timeout_after_sixty_attempts (backend : Backend) (port : Nat)
    (we ok : Bool) (h : allFailUpTo backend max_attempts = true) :
    numRequests (healthMonitor backend port we ok).1 = max_attempts ∧
    max_attempts = 60 ∧
    poll_interval_ms = 250 ∧
    totalSleepMs (healthMonitor backend port we ok).1 = 15000 ∧
    numNavigations (healthMonitor backend port we ok).1 = 0 ∧
    (healthMonitor backend port we ok).2 = .failedTimeout := by
  have hf := allFailUpTo_spec backend max_attempts h
  obtain ⟨h1, h2, h3, _, h5⟩ :=
    pollLoop_noSuccess backend port we ok max_attempts 0
      (fun j _ hj2 => hf j (by omega))
  refine ⟨h1, rfl, rfl, ?_, h2, h5⟩
  rw [show totalSleepMs (healthMonitor backend port we ok).1
    = max_attempts * poll_interval_ms from h3]
  decide

/-- Witness for C1's amended theorem: the never-responding backend satisfies
the hypothesis and exhibits the 60-poll, 15-second, zero-navigation
timeout. -/
theorem health_timeout_after_sixty_attempts_witness :
    allFailUpTo neverOkBackend max_attempts = true ∧
    (numRequests (healthMonitor neverOkBackend 8080 true true).1 = max_attempts ∧
     max_attempts = 60 ∧
     poll_interval_ms = 250 ∧
     totalSleepMs (healthMonitor neverOkBackend 8080 true true).1 = 15000 ∧
     numNavigations (healthMonitor neverOkBackend 8080 true true).1 = 0 ∧
     (healthMonitor neverOkBackend 8080 true true).2 = .failedTimeout) :=
  ⟨by decide, health_timeout_after_sixty_attempts neverOkBackend 8080 true true (by decide)⟩

/-- C3 counterexample: the navigation target the code writes into
`window.location.href` is `http://localhost:{port}/`, not the claimed
`http://127.0.0.1:{port}/` (shown at port 8080). -/
theorem nav_target_host_counterexample :
    navTarget 8080 = "http://localhost:8080/" ∧
    navTarget 8080 ≠ "http://127.0.0.1:8080/" := by
  constructor
  · rfl
  · decide

/-- C3 (amended): on the first successful health response the monitor stops
polling immediately (exactly `k + 1` requests in the whole trace when the
first success is at attempt `k`) and never issues another request; the
navigation action occurs exactly once, strictly after that successful
poll (it is the final event of the trace, right after the readiness log
line), and it sets the UI location to `http://localhost:{port}/` (the
loopback hostname, not the literal `127.0.0.1`). -/
theorem ready_stops_and_navigates_once (backend : Backend) (port : Nat)
    (ok : Bool) (k : Nat) (hk : k < max_attempts)
    (h : firstReadyAt backend k = true) :
    ∃ pre,
      (healthMonitor backend port true ok).1
        = pre ++ [.logInfo (readyMsg port), .navigate (navTarget port) ok] ∧
      numRequests pre = k + 1 ∧
      numRequests (healthMonitor backend port true ok).1 = k + 1 ∧
      numNavigations (healthMonitor backend port true ok).1 = 1 ∧
      navTarget port = "http://localhost:" ++ toString port ++ "/" ∧
      (healthMonitor backend port true ok).2 = .ready := by
  obtain ⟨hfb, hsb⟩ : allFailUpTo backend k = true ∧ attemptOk (backend k) = true := by
    simpa [firstReadyAt] using h
  obtain ⟨pre, heq, hc1, hc2, _, _, hst⟩ :=
    healthMonitor_success backend port true ok k hk
      (allFailUpTo_spec backend k hfb) hsb
  have heq' : (healthMonitor backend port true ok).1
      = pre ++ [.logInfo (readyMsg port), .navigate (navTarget port) ok] := by
    rw [heq]; simp
  refine ⟨pre, heq', hc1, ?_, ?_, rfl, hst⟩
  · rw [heq', numRequests_append, hc1]
    simp [numRequests]
  · rw [heq', numNavigations_append, hc2]
    simp [numNavigations]

/-- Witness for C3's amended theorem: a backend healthy from attempt 0
yields one request, one navigation, and state `ready`. -/
theorem ready_stops_and_navigates_once_witness :
    (0 < max_attempts ∧ firstReadyAt alwaysOkBackend 0 = true) ∧
    (numRequests (healthMonitor alwaysOkBackend 8080 true true).1 = 1 ∧
     numNavigations (healthMonitor alwaysOkBackend 8080 true true).1 = 1 ∧
     (healthMonitor alwaysOkBackend 8080 true true).2 = .ready) := by
  refine ⟨⟨by decide, by decide⟩, ?_⟩
  obtain ⟨_, _, _, h3, h4, _, h6⟩ :=
    ready_stops_and_navigates_once alwaysOkBackend 8080 true 0 (by decide) (by decide)
  exact ⟨h3, h4, h6⟩

/-- C4 counterexample: the health URL the code polls is
`http://localhost:{port}/health`, not the claimed
`http://127.0.0.1:{port}/health` (shown at port 8080). -/
theorem health_url_host_counterexample :
    healthUrl 8080 = "http://localhost:8080/health" ∧
    healthUrl 8080 ≠ "http://127.0.0.1:8080/health" := by
  constructor
  · rfl
  · decide

/-- C4 (amended): every health poll is a GET request to
`http://localhost:{port}/health` (the loopback hostname, not the literal
`127.0.0.1`), and the monitor ends in state `ready` if and only if some
attempt within the budget got a response with a 2xx status code; a
missing response (`none`, connection failure) or any non-2xx status
counts as not-yet-ready. -/
theorem health_request_shape_and_ready_iff (backend : Backend) (port : Nat)
    (we ok : Bool) :
    requestsWellFormed port (healthMonitor backend port we ok).1 = true ∧
    healthUrl port = "http://localhost:" ++ toString port ++ "/health" ∧
    ((healthMonitor backend port we ok).2 = .ready ↔
      ∃ j, j < max_attempts ∧ attemptOk (backend j) = true) ∧
    attemptOk none = false ∧
    (∀ s : Nat, attemptOk (some s) = true ↔ 200 ≤ s ∧ s < 300) := by
  refine ⟨pollLoop_requestsWellFormed backend port we ok max_attempts 0, rfl,
    ?_, rfl, ?_⟩
  · have h := pollLoop_ready_iff backend port we ok max_attempts 0
    simpa using h
  · intro s
    simp [attemptOk, is_success]

/-- C6: with every attempt in the budget failing, no individual failure is
surfaced — the only log line of the whole run is the single timeout
diagnostic — each failure is retried on the next tick (all 60 requests
are issued), and exhaustion is non-fatal: the task returns normally in
state failed-timeout having performed no window action at all (zero
navigations), leaving the window in its pre-sidecar state. -/
theorem failures_silent_timeout_nonfatal (backend : Backend) (port : Nat)
    (we ok : Bool) (h : allFailUpTo backend max_attempts = true) :
    logEvents (healthMonitor backend port we ok).1 = [.logError timeoutMsg] ∧
    numRequests (healthMonitor backend port we ok).1 = max_attempts ∧
    numNavigations (healthMonitor backend port we ok).1 = 0 ∧
    (healthMonitor backend port we ok).2 = .failedTimeout := by
  have hf := allFailUpTo_spec backend max_attempts h
  obtain ⟨h1, h2, _, h4, h5⟩ :=
    pollLoop_noSuccess backend port we ok max_attempts 0
      (fun j _ hj2 => hf j (by omega))
  exact ⟨h4, h1, h2, h5⟩

/-- Witness for C6: a backend that always answers HTTP 500 — every response
arrives but none is 2xx, so all 60 attempts fail silently and only the
timeout diagnostic is logged. -/
theorem failures_silent_timeout_nonfatal_witness :
    allFailUpTo always500Backend max_attempts = true ∧
    (logEvents (healthMonitor always500Backend 9000 true true).1
        = [.logError timeoutMsg] ∧
     numRequests (healthMonitor always500Backend 9000 true true).1 = max_attempts ∧
     numNavigations (healthMonitor always500Backend 9000 true true).1 = 0 ∧
     (healthMonitor always500Backend 9000 true true).2 = .failedTimeout) :=
  ⟨by decide, failures_silent_timeout_nonfatal always500Backend 9000 true true (by decide)⟩

/-- C9: the health loop suspends for the full 250ms interval before each
request — every request event in the trace is immediately preceded by a
`sleep 250` event, and the very first event of the monitor's trace is
the 250ms suspension, so the first probe cannot happen before one full
poll interval has elapsed and an already-healthy backend is detected at
the first tick, never at time zero. -/
theorem sleep_precedes_every_request (backend : Backend) (port : Nat)
    (we ok : Bool) :
    (healthMonitor backend port we ok).1.head? = some (.sleep poll_interval_ms) ∧
    sleepThenRequest (healthMonitor backend port we ok).1 = true ∧
    poll_interval_ms = 250 := by
  refine ⟨?_, pollLoop_sleepThenRequest backend port we ok max_attempts 0, rfl⟩
  show (pollLoop backend port we ok (59 + 1) 0).1.head? = _
  by_cases h0 : attemptOk (backend 0) = true
  · rw [pollLoop_succeed backend port we ok 59 0 h0]
    simp [pollBlock]
  · rw [pollLoop_continue backend port we ok 59 0 (by simpa using h0)]
    simp [pollBlock]

/-- C10: when the first 2xx response arrives at attempt `k`: (a) if the
webview window "main" no longer exists, the monitor performs no
navigation, still logs readiness as its only log line, and returns
normally in state `ready`; (b) whatever the navigation-eval outcome
(`evalOk` true or false — the code discards it), the log output and
final state are identical, and in particular no error is ever surfaced. -/
theorem ready_without_window_or_eval_failure (backend : Backend) (port : Nat)
    (k : Nat) (hk : k < max_attempts) (h : firstReadyAt backend k = true) :
    (numNavigations (healthMonitor backend port false true).1 = 0 ∧
     logEvents (healthMonitor backend port false true).1 = [.logInfo (readyMsg port)] ∧
     (healthMonitor backend port false true).2 = .ready) ∧
    (∀ we evalOk : Bool,
      logEvents (healthMonitor backend port we evalOk).1 = [.logInfo (readyMsg port)] ∧
      (healthMonitor backend port we evalOk).2 = .ready) := by
  obtain ⟨hfb, hsb⟩ : allFailUpTo backend k = true ∧ attemptOk (backend k) = true := by
    simpa [firstReadyAt] using h
  have hfail := allFailUpTo_spec backend k hfb
  constructor
  · obtain ⟨pre, heq, _, hn, hl, _, hst⟩ :=
      healthMonitor_success backend port false true k hk hfail hsb
    refine ⟨?_, ?_, hst⟩
    · rw [heq, numNavigations_append, numNavigations_append, hn]
      simp [numNavigations]
    · rw [heq, logEvents_append, logEvents_append, hl]
      simp [logEvents]
  · intro we evalOk
    obtain ⟨pre, heq, _, _, hl, _, hst⟩ :=
      healthMonitor_success backend port we evalOk k hk hfail hsb
    refine ⟨?_, hst⟩
    rw [heq, logEvents_append, logEvents_append, hl]
    cases we <;> simp [logEvents]

/-- Witness for C10: a backend that becomes healthy at attempt 2; with the
window gone the monitor logs readiness, navigates zero times and ends
`ready`, and with the window present the logs are the same whether the
eval fails or succeeds. -/
theorem ready_without_window_or_eval_failure_witness :
    (2 < max_attempts ∧ firstReadyAt okAt2Backend 2 = true) ∧
    (numNavigations (healthMonitor okAt2Backend 5000 false true).1 = 0 ∧
     logEvents (healthMonitor okAt2Backend 5000 false true).1
        = [.logInfo (readyMsg 5000)] ∧
     (healthMonitor okAt2Backend 5000 false true).2 = .ready) ∧
    (logEvents (healthMonitor okAt2Backend 5000 true false).1
        = [.logInfo (readyMsg 5000)] ∧
     (healthMonitor okAt2Backend 5000 true false).2 = .ready) := by
  refine ⟨⟨by decide, by decide⟩, ?_, ?_⟩
  · exact (ready_without_window_or_eval_failure okAt2Backend 5000 2
      (by decide) (by decide)).1
  · exact (ready_without_window_or_eval_failure okAt2Backend 5000 2
      (by decide) (by decide)).2 true false

/-- C5: over any event stream consisting of non-terminal events `pre`, a
terminal event `t` (process termination or spawn error), and arbitrary
further events `post`, the relay forwards every stdout line of `pre` to
the info sink and every stderr line to the error sink (origin and
content preserved, in order), then logs the terminal event and stops:
its output is independent of everything after `t`. -/
theorem relay_forwards_then_stops (pre post : List CommandEvent)
    (t : CommandEvent) (hpre : (pre.all fun e => !isTerminal e) = true)
    (ht : isTerminal t = true) :
    relay (pre ++ t :: post) = pre.filterMap lineLog ++ terminalLog t ∧
    relay (pre ++ t :: post) = relay (pre ++ [t]) := by
  have key : ∀ q : List CommandEvent, (q.all fun e => !isTerminal e) = true →
      ∀ r : List CommandEvent,
        relay (q ++ t :: r) = q.filterMap lineLog ++ terminalLog t := by
    intro q
    induction q with
    | nil =>
      intro _ r
      cases t with
      | stdout l => simp [isTerminal] at ht
      | stderr l => simp [isTerminal] at ht
      | terminated s => simp [relay, terminalLog]
      | error e => simp [relay, terminalLog]
      | other => simp [isTerminal] at ht
    | cons e rest ih =>
      intro hq r
      have hq' : (rest.all fun e => !isTerminal e) = true := by
        simp [List.all_cons] at hq
        simpa using hq.2
      have he : isTerminal e = false := by
        simp [List.all_cons] at hq
        simpa using hq.1
      cases e with
      | stdout l => simp [relay, lineLog, ih hq' r]
      | stderr l => simp [relay, lineLog, ih hq' r]
      | terminated s => simp [isTerminal] at he
      | error er => simp [isTerminal] at he
      | other => simp [relay, lineLog, ih hq' r]
  exact ⟨key pre hpre post, by rw [key pre hpre post, key pre hpre []]⟩

/-- Witness for C5: a stream with one stdout line, one stderr line and a
skipped event, then termination, then a line that must not be forwarded. -/
theorem relay_forwards_then_stops_witness :
    (([CommandEvent.stdout "boot", .stderr "warn", .other].all
        fun e => !isTerminal e) = true) ∧
    isTerminal (.terminated "ExitStatus(0)") = true ∧
    relay ([CommandEvent.stdout "boot", .stderr "warn", .other]
        ++ CommandEvent.terminated "ExitStatus(0)" :: [CommandEvent.stdout "late"])
      = [CommandEvent.stdout "boot", .stderr "warn", .other].filterMap lineLog
        ++ terminalLog (.terminated "ExitStatus(0)") :=
  ⟨by decide, rfl,
   (relay_forwards_then_stops [CommandEvent.stdout "boot", .stderr "warn", .other]
      [CommandEvent.stdout "late"] (.terminated "ExitStatus(0)")
      (by decide) rfl).1⟩

/-- Once the slot is empty, any further destroy signals do nothing. -/
theorem runDestroySignals_empty (n : Nat) :
    runDestroySignals none n = (none, 0) := by
  induction n with
  | zero => rfl
  | succ m ih => simp [runDestroySignals, on_window_destroyed, ih]

/-- C2: the terminate operation is idempotent: for any sequence of two or
more destroy signals starting from a held child handle, exactly one kill
request is issued in total, the slot ends (and stays) empty, and an
acquirer finding the slot empty performs no action. -/
theorem terminate_idempotent (h n : Nat) (hn : 2 ≤ n) :
    (runDestroySignals (some h) n).2 = 1 ∧
    (runDestroySignals (some h) n).1 = none ∧
    on_window_destroyed none = (none, 0) := by
  obtain ⟨m, rfl⟩ : ∃ m, n = m + 1 := ⟨n - 1, by omega⟩
  simp [runDestroySignals, on_window_destroyed, runDestroySignals_empty]

/-- Witness for C2: two destroy signals on handle 42 issue exactly one kill. -/
theorem terminate_idempotent_witness :
    2 ≤ 2 ∧
    ((runDestroySignals (some 42) 2).2 = 1 ∧
     (runDestroySignals (some 42) 2).1 = none ∧
     on_window_destroyed none = (none, 0)) :=
  ⟨by decide, terminate_idempotent 42 2 (by decide)⟩

/-- C7: if no ephemeral port is available, or the backend executable cannot
be located, or it cannot be spawned, startup aborts with a diagnostic
message, no output-relay task and no health-monitor task is ever
started, the child is never running, and nothing is retried (at most one
port allocation, no second spawn attempt). -/
theorem fatal_startup_aborts_no_tasks (osPort : Option Nat)
    (sidecarFound spawnOk : Bool) (md : String)
    (h : (osPort.isNone || !sidecarFound || !spawnOk) = true) :
    (mainStartup osPort sidecarFound spawnOk md).2.isSome = true ∧
    numRelayStarts (mainStartup osPort sidecarFound spawnOk md).1 = 0 ∧
    numMonitorStarts (mainStartup osPort sidecarFound spawnOk md).1 = 0 ∧
    numSpawnActions (mainStartup osPort sidecarFound spawnOk md).1 = 0 ∧
    numPortAllocations (mainStartup osPort sidecarFound spawnOk md).1 ≤ 1 := by
  cases osPort with
  | none =>
    simp [mainStartup, numRelayStarts, numMonitorStarts, numSpawnActions,
      numPortAllocations]
  | some p =>
    cases sidecarFound with
    | false =>
      simp [mainStartup, numRelayStarts, numMonitorStarts, numSpawnActions,
        numPortAllocations]
    | true =>
      cases spawnOk with
      | false =>
        simp [mainStartup, numRelayStarts, numMonitorStarts, numSpawnActions,
          numPortAllocations]
      | true => simp at h

/-- Witness for C7: the spawn-fails scenario (executable not found) at port
4321: startup aborts with a diagnostic and neither task starts. -/
theorem fatal_startup_aborts_no_tasks_witness :
    ((some 4321 : Option Nat).isNone || !false || !true) = true ∧
    ((mainStartup (some 4321) false true "/app/src-tauri").2.isSome = true ∧
     numRelayStarts (mainStartup (some 4321) false true "/app/src-tauri").1 = 0 ∧
     numMonitorStarts (mainStartup (some 4321) false true "/app/src-tauri").1 = 0 ∧
     numSpawnActions (mainStartup (some 4321) false true "/app/src-tauri").1 = 0 ∧
     numPortAllocations (mainStartup (some 4321) false true "/app/src-tauri").1 ≤ 1) :=
  ⟨by decide, fatal_startup_aborts_no_tasks (some 4321) false true "/app/src-tauri" (by decide)⟩

/-- C8: on a successful startup the trace is, in order: the port allocation
(binding `127.0.0.1:0` and reading back the OS-assigned port, strictly
before the spawn), the window build, the child spawn with environment
`PORT` set to the decimal rendering of the allocated port and
`CLIENT_DIST` set to the static-assets path derived from the manifest
directory, then state management and the two task starts; in particular
the allocation is at index 0 and the spawn at index 2. -/
theorem alloc_before_spawn_with_env (p : Nat) (md : String) :
    (mainStartup (some p) true true md).1 =
      [.allocPort "127.0.0.1:0" p, .buildWindow "main",
       .spawnChild "maude-server"
         [("PORT", toString p), ("CLIENT_DIST", md ++ "/../packages/client/build")],
       .manageChild, .startOutputRelay, .startHealthMonitor p] ∧
    (mainStartup (some p) true true md).1.head?
      = some (.allocPort "127.0.0.1:0" p) ∧
    (mainStartup (some p) true true md).1.get? 2
      = some (.spawnChild "maude-server"
          [("PORT", toString p), ("CLIENT_DIST", client_dist md)]) ∧
    toString (45678 : Nat) = "45678" := by
  refine ⟨rfl, rfl, rfl, rfl⟩

end Maude
